import Mathlib

/-!
Shallow embedding of the galoy payment-flow core:

* `src/domain/payments/payment-flow-builder.ts` — the staged Lightning
  payment-flow builder (stages `LPFBWithInvoice`, `LPFBWithSenderWallet`,
  `LPFBWithRecipientWallet`, `LPFBWithConversion`, sticky `LPFBWithError`);
* `src/domain/accounts/new-limits-checker.ts` — the account / two-FA
  velocity limits checkers.

TypeScript `A | Error` return values become `Except PaymentError A`.
JavaScript truthiness on numbers (`!!n`, `if (n && ...)`) is modelled
explicitly as `n ≠ 0`; truthiness on objects is `Option.isSome`.
The single `throw` in `withSenderWallet` is modelled by a dedicated
result constructor `TResult.thrown`, distinct from returned error values.
Collaborators that live outside the two source files (fee calculator,
price ratio, amount validators, hash generation) are modelled from the
spec and marked as such in their doc comments.
-/

namespace Galoy

abbrev Pubkey := String
abbrev WalletId := String
abbrev AccountId := String
abbrev UserId := String
abbrev Username := String
abbrev PaymentHash := String
abbrev IntraLedgerHash := String

inductive WalletCurrency
  | Btc
  | Usd
deriving DecidableEq, Repr

inductive SettlementMethod
  | IntraLedger
  | Lightning
deriving DecidableEq, Repr

inductive PaymentInitiationMethod
  | Lightning
  | IntraLedger
deriving DecidableEq, Repr

/-- A currency-tagged integer amount (satoshis for BTC, cents for USD). -/
structure PaymentAmount where
  amount : Int
  currency : WalletCurrency
deriving DecidableEq, Repr

/-- The error kinds that the two source files produce or propagate. -/
inductive PaymentError
  | validation (msg : String)
  | selfPayment
  | invalidBuilderState (msg : String)
  | invalidFlowState
  | dealerPrice (msg : String)
  | intraledgerLimitsExceeded (msg : String)
  | withdrawalLimitsExceeded (msg : String)
  | twoFALimitsExceeded
deriving DecidableEq, Repr

instance {ε α : Type} [DecidableEq ε] [DecidableEq α] : DecidableEq (Except ε α) :=
  fun x y =>
    match x, y with
    | .ok a, .ok b =>
        if h : a = b then .isTrue (by rw [h])
        else .isFalse (by intro hh; cases hh; exact h rfl)
    | .ok _, .error _ => .isFalse (by intro hh; cases hh)
    | .error _, .ok _ => .isFalse (by intro hh; cases hh)
    | .error a, .error b =>
        if h : a = b then .isTrue (by rw [h])
        else .isFalse (by intro hh; cases hh; exact h rfl)

/-- JavaScript truthiness of an optional number (`!!x`): present and nonzero. -/
def truthyNum : Option Int → Bool
  | none => false
  | some n => n != 0

/-- Modelled from the spec (§4.2, `LnFees().intraLedgerFees()` is imported
from `./ln-fees`, which is not under `src/`): the fixed,
configuration-derived intra-ledger fee pair. -/
def intraLedgerFeeBtc : PaymentAmount := ⟨0, WalletCurrency.Btc⟩

/-- Modelled from the spec: the USD half of the fixed intra-ledger fee pair. -/
def intraLedgerFeeUsd : PaymentAmount := ⟨0, WalletCurrency.Usd⟩

/-- Modelled from the spec (§4.2, `LnFees().maxProtocolAndBankFee` is not
under `src/`): a conservative upper-bound fee estimate in the same currency
as the input; the spec fixes only same-currency and upper-bound, not the
formula. -/
def maxProtocolAndBankFee (a : PaymentAmount) : PaymentAmount :=
  ⟨a.amount / 200 + 1, a.currency⟩

/-- A concrete Lightning route; only its fee matters to this core.
Modelled from the spec (§4.2): `feeFromRawRoute` derives the exact fee
from it or fails. -/
structure RawRoute where
  fee : Int
deriving DecidableEq, Repr

/-- Modelled from the spec (§4.2, `LnFees().feeFromRawRoute` is not under
`src/`): derives the exact BTC fee from a concrete route; fails if the
route cannot yield a fee. -/
def feeFromRawRoute (r : RawRoute) : Except PaymentError PaymentAmount :=
  if r.fee < 0 then .error (.validation "feeFromRawRoute - invalid route")
  else .ok ⟨r.fee, WalletCurrency.Btc⟩

/-- Modelled from the spec (§4.1, `./price-ratio` is not under `src/`):
an exchange-rate snapshot from one matched (BTC, USD) amount pair. -/
structure PriceRatio where
  usd : Int
  btc : Int
deriving DecidableEq, Repr

/-- Modelled from the spec (§4.1): construction fails with a validation
error if either constituent amount is non-positive. -/
def mkPriceRatio (p : PaymentAmount × PaymentAmount) : Except PaymentError PriceRatio :=
  if p.1.amount ≤ 0 ∨ p.2.amount ≤ 0 then
    .error (.validation "PriceRatio - non-positive amount")
  else .ok ⟨p.1.amount, p.2.amount⟩

/-- Modelled from the spec (§4.1): proportional BTC→USD conversion. -/
def PriceRatio.convertFromBtc (r : PriceRatio) (a : PaymentAmount) : PaymentAmount :=
  ⟨a.amount * r.usd / r.btc, WalletCurrency.Usd⟩

/-- Modelled from the spec (§4.1): BTC→USD conversion rounding up, used for
fees so they are never under-collected. -/
def PriceRatio.convertFromBtcToCeil (r : PriceRatio) (a : PaymentAmount) : PaymentAmount :=
  ⟨(a.amount * r.usd + r.btc - 1) / r.btc, WalletCurrency.Usd⟩

/-- Modelled from the spec (§4.1): inverse proportional USD→BTC conversion. -/
def PriceRatio.convertFromUsd (r : PriceRatio) (a : PaymentAmount) : PaymentAmount :=
  ⟨a.amount * r.btc / r.usd, WalletCurrency.Btc⟩

/-- Modelled from the spec (§6, `checkedToBtcPaymentAmount` from
`@domain/payments` is not under `src/`): validates an unchecked number as a
BTC amount, failing on non-positive input. -/
def checkedToBtcPaymentAmount (n : Int) : Except PaymentError PaymentAmount :=
  if n ≤ 0 then .error (.validation "InvalidBtcPaymentAmount")
  else .ok ⟨n, WalletCurrency.Btc⟩

/-- Modelled from the spec (§6): validates an unchecked number as a USD
amount, failing on non-positive input. -/
def checkedToUsdPaymentAmount (n : Int) : Except PaymentError PaymentAmount :=
  if n ≤ 0 then .error (.validation "InvalidUsdPaymentAmount")
  else .ok ⟨n, WalletCurrency.Usd⟩

/-- Modelled from the spec (§3, `paymentAmountFromNumber` from
`@domain/shared` is not under `src/`): builds a currency-tagged amount,
failing on a negative quantity (amounts are non-negative integers). -/
def paymentAmountFromNumber (n : Int) (c : WalletCurrency) :
    Except PaymentError PaymentAmount :=
  if n < 0 then .error (.validation "InvalidPaymentAmount")
  else .ok ⟨n, c⟩

/-- A parsed Lightning invoice as consumed by the builder; `finalHops` is
the pubkey set that `parseFinalHopsFromInvoice` extracts. -/
structure LnInvoice where
  destination : Option Pubkey
  paymentHash : PaymentHash
  paymentAmount : Option PaymentAmount
  description : String
  finalHops : List Pubkey
deriving DecidableEq, Repr

/-- The builder configuration (`LightningPaymentFlowBuilderConfig`). -/
structure LPFBConfig where
  localNodeIds : List Pubkey
  flaggedPubkeys : List Pubkey
deriving DecidableEq, Repr

/-- A resolved wallet descriptor (id, currency, owning account). -/
structure WalletDescriptor where
  id : WalletId
  currency : WalletCurrency
  accountId : AccountId
deriving DecidableEq, Repr

/-- The argument record of `withRecipientWallet`. -/
structure RecipientArgs where
  id : WalletId
  currency : WalletCurrency
  pubkey : Option Pubkey
  usdPaymentAmount : Option PaymentAmount
  username : Option Username
  accountId : AccountId
  userId : UserId
deriving DecidableEq, Repr

/-- State carried by the `LPFBWithInvoice` stage. -/
structure LPFBWithInvoiceState extends LPFBConfig where
  settlementMethod : SettlementMethod
  paymentInitiationMethod : PaymentInitiationMethod
  paymentHash : Option PaymentHash
  intraLedgerHash : Option IntraLedgerHash
  uncheckedAmount : Option Int
  btcPaymentAmount : Option PaymentAmount
  usdPaymentAmount : Option PaymentAmount
  inputAmount : Option Int
  btcProtocolAndBankFee : Option PaymentAmount
  usdProtocolAndBankFee : Option PaymentAmount
  descriptionFromInvoice : String
  skipProbeForDestination : Bool
deriving DecidableEq, Repr

/-- State carried by the `LPFBWithSenderWallet` stage: the invoice state
plus the sender identity fields set by `withSenderWallet`. -/
structure LPFBWithSenderWalletState extends LPFBWithInvoiceState where
  senderWalletId : WalletId
  senderWalletCurrency : WalletCurrency
  senderAccountId : AccountId
deriving DecidableEq, Repr

/-- State carried by the `LPFBWithRecipientWallet` stage; the recipient
fields stay optional because `withoutRecipientWallet` spreads the sender
state without setting them. -/
structure LPFBWithRecipientWalletState extends LPFBWithSenderWalletState where
  recipientWalletId : Option WalletId
  recipientWalletCurrency : Option WalletCurrency
  recipientPubkey : Option Pubkey
  recipientAccountId : Option AccountId
  recipientUsername : Option Username
  recipientUserId : Option UserId
deriving DecidableEq, Repr

/-- State carried by the `LPFBWithConversion` stage (the resolved value of
the stage's promise); `withConversion` overwrites the four amount/fee
fields of the base record with resolved values and stamps `createdAt`. -/
structure LPFBWithConversionState extends LPFBWithRecipientWalletState where
  createdAt : Nat
deriving DecidableEq, Repr

/-- State passed to `paymentFromState` by `withoutRoute` / `withRoute`. -/
structure LPFBWithRouteState extends LPFBWithConversionState where
  outgoingNodePubkey : Option Pubkey
  checkedRoute : Option RawRoute
deriving DecidableEq, Repr

/-- The terminal payment-flow record assembled by `paymentFromState`. -/
structure PaymentFlowRec where
  paymentHash : Option PaymentHash
  intraLedgerHash : Option IntraLedgerHash
  senderWalletId : WalletId
  senderWalletCurrency : WalletCurrency
  senderAccountId : AccountId
  recipientWalletId : Option WalletId
  recipientWalletCurrency : Option WalletCurrency
  recipientAccountId : Option AccountId
  recipientPubkey : Option Pubkey
  recipientUsername : Option Username
  recipientUserId : Option UserId
  descriptionFromInvoice : String
  skipProbeForDestination : Bool
  btcPaymentAmount : Option PaymentAmount
  usdPaymentAmount : Option PaymentAmount
  inputAmount : Option Int
  createdAt : Nat
  paymentSentAndPending : Bool
  settlementMethod : SettlementMethod
  paymentInitiationMethod : PaymentInitiationMethod
  btcProtocolAndBankFee : Option PaymentAmount
  usdProtocolAndBankFee : Option PaymentAmount
  outgoingNodePubkey : Option Pubkey
  cachedRoute : Option RawRoute
deriving DecidableEq, Repr

/-- Result of `withSenderWallet`: next stage, an error value, or the
`throw new Error("withSenderWallet impossible")` escape, which is not an
error value. -/
inductive TResult (α : Type)
  | ok (a : α)
  | err (e : PaymentError)
  | thrown (msg : String)
deriving DecidableEq, Repr

/-- An external rate source (`mid`, `hedgeBuyUsd` or `hedgeSellUsd`),
exposing `usdFromBtc` / `btcFromUsd`, each of which may fail with a
dealer-price-service error. -/
structure RateSource where
  usdFromBtc : PaymentAmount → Except PaymentError PaymentAmount
  btcFromUsd : PaymentAmount → Except PaymentError PaymentAmount

/-- The `WithConversionArgs` record of rate sources. -/
structure ConversionArgs where
  hedgeBuyUsd : RateSource
  hedgeSellUsd : RateSource
  mid : RateSource

/-- `settlementMethodFromDestination`: resolves the settlement method from
the invoice destination and attaches the intra-ledger fee pair when the
method is IntraLedger. -/
def settlementMethodFromDestination (config : LPFBConfig) (destination : Option Pubkey) :
    SettlementMethod × Option PaymentAmount × Option PaymentAmount :=
  let settlementMethod :=
    match destination with
    | none => SettlementMethod.IntraLedger
    | some d =>
        if config.localNodeIds.contains d then SettlementMethod.IntraLedger
        else SettlementMethod.Lightning
  ⟨settlementMethod,
    if settlementMethod = SettlementMethod.IntraLedger then some intraLedgerFeeBtc else none,
    if settlementMethod = SettlementMethod.IntraLedger then some intraLedgerFeeUsd else none⟩

/-- `skipProbeFromInvoice`: true iff the invoice's final-hop pubkeys
intersect the configured flagged-pubkey set. -/
def skipProbeFromInvoice (config : LPFBConfig) (invoice : LnInvoice) : Bool :=
  invoice.finalHops.any (fun p => config.flaggedPubkeys.contains p)

/-- `withInvoice`: fails if the invoice carries no amount; otherwise starts
the builder with the invoice's hash, amount and resolved settlement. -/
def withInvoice (config : LPFBConfig) (invoice : LnInvoice) :
    Except PaymentError LPFBWithInvoiceState :=
  match invoice.paymentAmount with
  | none => .error (.invalidBuilderState "withInvoice - paymentAmount missing")
  | some pa =>
      let r := settlementMethodFromDestination config invoice.destination
      .ok
        { toLPFBConfig := config
          settlementMethod := r.1
          paymentInitiationMethod := PaymentInitiationMethod.Lightning
          paymentHash := some invoice.paymentHash
          intraLedgerHash := none
          uncheckedAmount := none
          btcPaymentAmount := some pa
          usdPaymentAmount := none
          inputAmount := some pa.amount
          btcProtocolAndBankFee := r.2.1
          usdProtocolAndBankFee := r.2.2
          descriptionFromInvoice := invoice.description
          skipProbeForDestination := skipProbeFromInvoice config invoice }

/-- `withNoAmountInvoice`: starts the builder from a no-amount invoice,
carrying the unchecked numeric amount for later validation. -/
def withNoAmountInvoice (config : LPFBConfig) (invoice : LnInvoice) (uncheckedAmount : Int) :
    Except PaymentError LPFBWithInvoiceState :=
  let r := settlementMethodFromDestination config invoice.destination
  .ok
    { toLPFBConfig := config
      settlementMethod := r.1
      paymentInitiationMethod := PaymentInitiationMethod.Lightning
      paymentHash := some invoice.paymentHash
      intraLedgerHash := none
      uncheckedAmount := some uncheckedAmount
      btcPaymentAmount := none
      usdPaymentAmount := none
      inputAmount := none
      btcProtocolAndBankFee := r.2.1
      usdProtocolAndBankFee := r.2.2
      descriptionFromInvoice := invoice.description
      skipProbeForDestination := skipProbeFromInvoice config invoice }

/-- `withoutInvoice`: starts the builder for a username/wallet-addressed
payment; always IntraLedger, with a freshly generated intra-ledger hash
(the generated hash is passed in explicitly, as `generateIntraLedgerHash`
is an external effect). -/
def withoutInvoice (config : LPFBConfig) (generatedHash : IntraLedgerHash)
    (uncheckedAmount : Int) (description : String) :
    Except PaymentError LPFBWithInvoiceState :=
  let r := settlementMethodFromDestination config none
  .ok
    { toLPFBConfig := config
      settlementMethod := r.1
      paymentInitiationMethod := PaymentInitiationMethod.IntraLedger
      paymentHash := none
      intraLedgerHash := some generatedHash
      uncheckedAmount := some uncheckedAmount
      btcPaymentAmount := none
      usdPaymentAmount := none
      inputAmount := none
      btcProtocolAndBankFee := r.2.1
      usdProtocolAndBankFee := r.2.2
      descriptionFromInvoice := description
      skipProbeForDestination := false }

/-- `LPFBWithInvoice.withSenderWallet`: validates a pending unchecked
amount against the sender currency, or reuses a checked BTC amount;
the fall-through `throw new Error("withSenderWallet impossible")` is the
`thrown` result.  On the sticky error stage it returns the stored error. -/
def LPFBWithInvoice.withSenderWallet (b : Except PaymentError LPFBWithInvoiceState)
    (senderWallet : WalletDescriptor) : TResult LPFBWithSenderWalletState :=
  match b with
  | .error e => .err e
  | .ok state =>
      match state.uncheckedAmount with
      | some ua =>
          if senderWallet.currency = WalletCurrency.Btc then
            match checkedToBtcPaymentAmount ua with
            | .error e => .err e
            | .ok paymentAmount =>
                .ok
                  { toLPFBWithInvoiceState :=
                      { state with
                        btcPaymentAmount := some paymentAmount
                        inputAmount := some paymentAmount.amount
                        btcProtocolAndBankFee :=
                          some (state.btcProtocolAndBankFee.getD
                            (maxProtocolAndBankFee paymentAmount)) }
                    senderWalletId := senderWallet.id
                    senderWalletCurrency := senderWallet.currency
                    senderAccountId := senderWallet.accountId }
          else
            match checkedToUsdPaymentAmount ua with
            | .error e => .err e
            | .ok paymentAmount =>
                .ok
                  { toLPFBWithInvoiceState :=
                      { state with
                        usdPaymentAmount := some paymentAmount
                        inputAmount := some paymentAmount.amount
                        usdProtocolAndBankFee :=
                          some (state.usdProtocolAndBankFee.getD
                            (maxProtocolAndBankFee paymentAmount)) }
                    senderWalletId := senderWallet.id
                    senderWalletCurrency := senderWallet.currency
                    senderAccountId := senderWallet.accountId }
      | none =>
          match state.inputAmount, state.btcPaymentAmount with
          | some inputAmount, some btcPaymentAmount =>
              if inputAmount != 0 then
                .ok
                  { toLPFBWithInvoiceState :=
                      { state with
                        btcPaymentAmount := some btcPaymentAmount
                        btcProtocolAndBankFee :=
                          some (state.btcProtocolAndBankFee.getD
                            (maxProtocolAndBankFee btcPaymentAmount))
                        inputAmount := some inputAmount }
                    senderWalletId := senderWallet.id
                    senderWalletCurrency := senderWallet.currency
                    senderAccountId := senderWallet.accountId }
              else .thrown "withSenderWallet impossible"
          | _, _ => .thrown "withSenderWallet impossible"

/-- `LPFBWithSenderWallet.withoutRecipientWallet`: only valid when the
settlement method is Lightning. -/
def LPFBWithSenderWallet.withoutRecipientWallet
    (b : Except PaymentError LPFBWithSenderWalletState) :
    Except PaymentError LPFBWithRecipientWalletState :=
  match b with
  | .error e => .error e
  | .ok state =>
      if state.settlementMethod = SettlementMethod.IntraLedger then
        .error (.invalidBuilderState
          "withoutRecipientWallet called but settlementMethod is IntraLedger")
      else
        .ok
          { toLPFBWithSenderWalletState := state
            recipientWalletId := none
            recipientWalletCurrency := none
            recipientPubkey := none
            recipientAccountId := none
            recipientUsername := none
            recipientUserId := none }

/-- `LPFBWithSenderWallet.withRecipientWallet`: rejects self-payments, then
applies the USD-recipient XNOR truthiness check
`!!usdPaymentAmount === !!state.uncheckedAmount`; on success carries the
recipient identity, preferring the explicit USD amount. -/
def LPFBWithSenderWallet.withRecipientWallet
    (b : Except PaymentError LPFBWithSenderWalletState) (r : RecipientArgs) :
    Except PaymentError LPFBWithRecipientWalletState :=
  match b with
  | .error e => .error e
  | .ok state =>
      if r.id = state.senderWalletId then .error .selfPayment
      else if r.currency = WalletCurrency.Usd ∧
          r.usdPaymentAmount.isSome = truthyNum state.uncheckedAmount then
        .error (.invalidBuilderState
          "withRecipientWallet incorrect combination of usdPaymentAmount and uncheckedAmount")
      else
        .ok
          { toLPFBWithSenderWalletState :=
              { state with
                usdPaymentAmount := r.usdPaymentAmount.orElse (fun _ => state.usdPaymentAmount) }
            recipientWalletId := some r.id
            recipientWalletCurrency := some r.currency
            recipientPubkey := r.pubkey
            recipientAccountId := some r.accountId
            recipientUsername := r.username
            recipientUserId := some r.userId }

/-- `LPFBWithSenderWallet.isIntraLedger`: pure predicate on the settlement
method; on the error stage it returns the stored error. -/
def LPFBWithSenderWallet.isIntraLedger
    (b : Except PaymentError LPFBWithSenderWalletState) : Except PaymentError Bool :=
  match b with
  | .error e => .error e
  | .ok state => .ok (state.settlementMethod = SettlementMethod.IntraLedger)

/-- Helper for `withConversion`: the resolved state that overwrites the four
amount/fee fields and stamps the creation time. -/
def resolvedConversionState (state : LPFBWithRecipientWalletState) (now : Nat)
    (bpa upa bfee ufee : PaymentAmount) : LPFBWithConversionState :=
  { toLPFBWithRecipientWalletState :=
      { state with
        btcPaymentAmount := some bpa
        usdPaymentAmount := some upa
        btcProtocolAndBankFee := some bfee
        usdProtocolAndBankFee := some ufee }
    createdAt := now }

/-- `LPFBWithRecipientWallet.withConversion`: decides whether conversion is
needed; uses the `mid` source when not (and one side is missing), the
directional hedge when it is; the pending promise is modelled as the
already-resolved `Except` value, with the current time passed explicitly. -/
def LPFBWithRecipientWallet.withConversion
    (b : Except PaymentError LPFBWithRecipientWalletState) (args : ConversionArgs)
    (now : Nat) : Except PaymentError LPFBWithConversionState :=
  match b with
  | .error e => .error e
  | .ok state =>
      if (state.senderWalletCurrency = WalletCurrency.Btc ∧
            state.settlementMethod = SettlementMethod.Lightning) ∨
          state.recipientWalletCurrency = some state.senderWalletCurrency then
        -- no conversion required: mid price when one side is missing
        match state.btcPaymentAmount, state.btcProtocolAndBankFee,
            state.usdPaymentAmount, state.usdProtocolAndBankFee with
        | some bpa, some bfee, some upa, some ufee =>
            .ok (resolvedConversionState state now bpa upa bfee ufee)
        | some bpa, some bfee, _, _ =>
            match args.mid.usdFromBtc bpa with
            | .error e => .error e
            | .ok convertedAmount =>
                match mkPriceRatio (convertedAmount, bpa) with
                | .error e => .error e
                | .ok priceRatio =>
                    .ok (resolvedConversionState state now bpa convertedAmount bfee
                      (priceRatio.convertFromBtcToCeil bfee))
        | _, _, some upa, some ufee =>
            match args.mid.btcFromUsd upa with
            | .error e => .error e
            | .ok convertedAmount =>
                match mkPriceRatio (upa, convertedAmount) with
                | .error e => .error e
                | .ok priceRatio =>
                    .ok (resolvedConversionState state now convertedAmount upa
                      (priceRatio.convertFromUsd ufee) ufee)
        | _, _, _, _ =>
            .error (.invalidBuilderState
              "withConversion - btcPaymentAmount || btcProtocolAndBankFee not set")
      else
        -- conversion required: directional hedge unless the USD side is
        -- already fully specified by a USD recipient
        match state.btcPaymentAmount, state.btcProtocolAndBankFee with
        | some bpa, some bfee =>
            match decide (state.recipientWalletCurrency = some WalletCurrency.Usd),
                state.usdPaymentAmount, state.usdProtocolAndBankFee with
            | true, some upa, some ufee =>
                .ok (resolvedConversionState state now bpa upa bfee ufee)
            | _, _, _ =>
                let src :=
                  if state.senderWalletCurrency = WalletCurrency.Btc then args.hedgeBuyUsd
                  else args.hedgeSellUsd
                match src.usdFromBtc bpa with
                | .error e => .error e
                | .ok convertedAmount =>
                    match mkPriceRatio (convertedAmount, bpa) with
                    | .error e => .error e
                    | .ok priceRatio =>
                        .ok (resolvedConversionState state now bpa convertedAmount bfee
                          (priceRatio.convertFromBtcToCeil bfee))
        | _, _ =>
            match state.usdPaymentAmount, state.usdProtocolAndBankFee with
            | some upa, some ufee =>
                let src :=
                  if state.senderWalletCurrency = WalletCurrency.Btc then args.hedgeBuyUsd
                  else args.hedgeSellUsd
                match src.btcFromUsd upa with
                | .error e => .error e
                | .ok convertedAmount =>
                    match mkPriceRatio (upa, convertedAmount) with
                    | .error e => .error e
                    | .ok priceRatio =>
                        .ok (resolvedConversionState state now convertedAmount upa
                          (priceRatio.convertFromUsd ufee) ufee)
            | _, _ =>
                .error (.invalidBuilderState
                  "withConversion - impossible withConversion state")

/-- `paymentFromState`: assembles the terminal Payment Flow, requiring a
payment hash (preferred) or an intra-ledger hash; with neither it fails
with `InvalidLightningPaymentFlowStateError`. -/
def paymentFromState (state : LPFBWithRouteState) :
    Except PaymentError PaymentFlowRec :=
  let hash : Except PaymentError (Option PaymentHash × Option IntraLedgerHash) :=
    match state.paymentHash with
    | some h => .ok (some h, none)
    | none =>
        match state.intraLedgerHash with
        | some ih => .ok (none, some ih)
        | none => .error .invalidFlowState
  match hash with
  | .error e => .error e
  | .ok hp =>
      .ok
        { paymentHash := hp.1
          intraLedgerHash := hp.2
          senderWalletId := state.senderWalletId
          senderWalletCurrency := state.senderWalletCurrency
          senderAccountId := state.senderAccountId
          recipientWalletId := state.recipientWalletId
          recipientWalletCurrency := state.recipientWalletCurrency
          recipientAccountId := state.recipientAccountId
          recipientPubkey := state.recipientPubkey
          recipientUsername := state.recipientUsername
          recipientUserId := state.recipientUserId
          descriptionFromInvoice := state.descriptionFromInvoice
          skipProbeForDestination := state.skipProbeForDestination
          btcPaymentAmount := state.btcPaymentAmount
          usdPaymentAmount := state.usdPaymentAmount
          inputAmount := state.inputAmount
          createdAt := state.createdAt
          paymentSentAndPending := false
          settlementMethod := state.settlementMethod
          paymentInitiationMethod := state.paymentInitiationMethod
          btcProtocolAndBankFee := state.btcProtocolAndBankFee
          usdProtocolAndBankFee := state.usdProtocolAndBankFee
          outgoingNodePubkey := state.outgoingNodePubkey
          cachedRoute := state.checkedRoute }

/-- `LPFBWithConversion.withoutRoute`: resolves the pending state and emits
the flow with no route information. -/
def LPFBWithConversion.withoutRoute
    (b : Except PaymentError LPFBWithConversionState) :
    Except PaymentError PaymentFlowRec :=
  match b with
  | .error e => .error e
  | .ok state =>
      paymentFromState
        { toLPFBWithConversionState := state
          outgoingNodePubkey := none
          checkedRoute := none }

/-- The price-ratio construction `withRoute` performs on the resolved
state's USD/BTC amount pair; an absent amount behaves like a non-positive
one and fails validation. -/
def priceRatioFromState (state : LPFBWithConversionState) :
    Except PaymentError PriceRatio :=
  match state.usdPaymentAmount, state.btcPaymentAmount with
  | some u, some btc => mkPriceRatio (u, btc)
  | _, _ => .error (.validation "PriceRatio - non-positive amount")

/-- `LPFBWithConversion.withRoute`: resolves the pending state, derives the
exact BTC fee from the raw route and the paired USD fee via the price
ratio with ceiling rounding, then emits the flow with the route. -/
def LPFBWithConversion.withRoute
    (b : Except PaymentError LPFBWithConversionState) (pubkey : Pubkey)
    (rawRoute : RawRoute) : Except PaymentError PaymentFlowRec :=
  match b with
  | .error e => .error e
  | .ok state =>
      match priceRatioFromState state with
      | .error e => .error e
      | .ok priceRatio =>
          match feeFromRawRoute rawRoute with
          | .error e => .error e
          | .ok btcProtocolAndBankFee =>
              paymentFromState
                { toLPFBWithConversionState :=
                    { state with
                      btcProtocolAndBankFee := some btcProtocolAndBankFee
                      usdProtocolAndBankFee :=
                        some (priceRatio.convertFromBtcToCeil btcProtocolAndBankFee) }
                  outgoingNodePubkey := some pubkey
                  checkedRoute := some rawRoute }

/-- `LPFBWithConversion.btcPaymentAmount`: projects the BTC amount from the
resolved state, propagating a pending error. -/
def LPFBWithConversion.btcPaymentAmount
    (b : Except PaymentError LPFBWithConversionState) :
    Except PaymentError (Option PaymentAmount) :=
  match b with
  | .error e => .error e
  | .ok state => .ok state.btcPaymentAmount

/-- `LPFBWithConversion.usdPaymentAmount`: projects the USD amount from the
resolved state, propagating a pending error. -/
def LPFBWithConversion.usdPaymentAmount
    (b : Except PaymentError LPFBWithConversionState) :
    Except PaymentError (Option PaymentAmount) :=
  match b with
  | .error e => .error e
  | .ok state => .ok state.usdPaymentAmount

/-- `LPFBWithConversion.skipProbeForDestination`: projects the probe-skip
flag, propagating a pending error. -/
def LPFBWithConversion.skipProbeForDestination
    (b : Except PaymentError LPFBWithConversionState) : Except PaymentError Bool :=
  match b with
  | .error e => .error e
  | .ok state => .ok state.skipProbeForDestination

/-- `LPFBWithConversion.isIntraLedger`: settlement-method predicate on the
resolved state, propagating a pending error. -/
def LPFBWithConversion.isIntraLedger
    (b : Except PaymentError LPFBWithConversionState) : Except PaymentError Bool :=
  match b with
  | .error e => .error e
  | .ok state => .ok (state.settlementMethod = SettlementMethod.IntraLedger)

/-- `LPFBWithConversion.isTradeIntraAccount`: true iff sender and recipient
share an account id but differ in wallet currency. -/
def LPFBWithConversion.isTradeIntraAccount
    (b : Except PaymentError LPFBWithConversionState) : Except PaymentError Bool :=
  match b with
  | .error e => .error e
  | .ok state =>
      .ok (state.recipientAccountId = some state.senderAccountId ∧
        state.recipientWalletCurrency ≠ some state.senderWalletCurrency)

/-- One operation invocable on a builder stage, with its arguments: the
sticky error stage (`LPFBWithError`) exposes all of them. -/
inductive BuilderOp
  | withSenderWallet (w : WalletDescriptor)
  | withoutRecipientWallet
  | withRecipientWallet (r : RecipientArgs)
  | withConversion (args : ConversionArgs) (now : Nat)
  | withRoute (pubkey : Pubkey) (rawRoute : RawRoute)
  | withoutRoute
  | skipProbeForDestination
  | isIntraLedger
  | isTradeIntraAccount
  | btcPaymentAmount
  | usdPaymentAmount

/-- `LPFBWithError`: every method either returns `LPFBWithError(error)`
(the same error stage) or resolves to the stored error; as a state machine
on the stored error, each operation leaves it unchanged. -/
def LPFBWithError.apply (error : PaymentError) : BuilderOp → PaymentError
  | .withSenderWallet _ => error
  | .withoutRecipientWallet => error
  | .withRecipientWallet _ => error
  | .withConversion _ _ => error
  | .withRoute _ _ => error
  | .withoutRoute => error
  | .skipProbeForDestination => error
  | .isIntraLedger => error
  | .isTradeIntraAccount => error
  | .btcPaymentAmount => error
  | .usdPaymentAmount => error

/-- The account limits configuration (`IAccountLimits`). -/
structure IAccountLimits where
  intraLedgerLimit : Int
  withdrawalLimit : Int
deriving DecidableEq, Repr

/-- The two-FA limits configuration (`TwoFALimits`). -/
structure TwoFALimits where
  threshold : Int
deriving DecidableEq, Repr

/-- A wallet's rolling outgoing volume (`NewLimiterCheckInputs.walletVolume`). -/
structure WalletVolume where
  outgoingBaseAmount : PaymentAmount
deriving DecidableEq, Repr

/-- The limits checkers' volume normalization: convert a BTC volume to USD
via the supplied price-ratio conversion, pass a USD volume through. -/
def volumeInUsdAmount (convertFromBtc : PaymentAmount → Except PaymentError PaymentAmount)
    (walletVolume : WalletVolume) : Except PaymentError PaymentAmount :=
  if walletVolume.outgoingBaseAmount.currency = WalletCurrency.Btc then
    convertFromBtc walletVolume.outgoingBaseAmount
  else .ok walletVolume.outgoingBaseAmount

/-- `AccountLimitsChecker.checkIntraledger`: normalizes the volume to USD,
builds the ceiling, and fails iff the remaining headroom is below the
requested amount. -/
def checkIntraledger (accountLimits : IAccountLimits)
    (convertFromBtc : PaymentAmount → Except PaymentError PaymentAmount)
    (amount : PaymentAmount) (walletVolume : WalletVolume) :
    Except PaymentError Bool := do
  let vol ← volumeInUsdAmount convertFromBtc walletVolume
  let limit ← paymentAmountFromNumber accountLimits.intraLedgerLimit WalletCurrency.Usd
  let remainingLimit := limit.amount - vol.amount
  if remainingLimit < amount.amount then
    .error (.intraledgerLimitsExceeded
      ("Cannot transfer more than " ++ toString accountLimits.intraLedgerLimit ++
        " cents in 24 hours"))
  else .ok true

/-- `AccountLimitsChecker.checkWithdrawal`: same algorithm against the
withdrawal ceiling. -/
def checkWithdrawal (accountLimits : IAccountLimits)
    (convertFromBtc : PaymentAmount → Except PaymentError PaymentAmount)
    (amount : PaymentAmount) (walletVolume : WalletVolume) :
    Except PaymentError Bool := do
  let vol ← volumeInUsdAmount convertFromBtc walletVolume
  let limit ← paymentAmountFromNumber accountLimits.withdrawalLimit WalletCurrency.Usd
  let remainingLimit := limit.amount - vol.amount
  if remainingLimit < amount.amount then
    .error (.withdrawalLimitsExceeded
      ("Cannot transfer more than " ++ toString accountLimits.withdrawalLimit ++
        " cents in 24 hours"))
  else .ok true

/-- `TwoFALimitsChecker.checkTwoFA`: same algorithm against the two-FA
threshold. -/
def checkTwoFA (twoFALimits : TwoFALimits)
    (convertFromBtc : PaymentAmount → Except PaymentError PaymentAmount)
    (amount : PaymentAmount) (walletVolume : WalletVolume) :
    Except PaymentError Bool := do
  let vol ← volumeInUsdAmount convertFromBtc walletVolume
  let limit ← paymentAmountFromNumber twoFALimits.threshold WalletCurrency.Usd
  let remainingLimit := limit.amount - vol.amount
  if remainingLimit < amount.amount then .error .twoFALimitsExceeded
  else .ok true

/-- The settlement projection used by the settlement-resolution theorems:
settlement method and the attached fee pair. -/
def projSettle (s : LPFBWithInvoiceState) :
    SettlementMethod × Option PaymentAmount × Option PaymentAmount :=
  (s.settlementMethod, s.btcProtocolAndBankFee, s.usdProtocolAndBankFee)

/-- Whether a destination resolves to the local node set (`undefined` or a
member of `localNodeIds`). -/
def isLocalDestination (c : LPFBConfig) : Option Pubkey → Bool
  | none => true
  | some d => c.localNodeIds.contains d

/-- Concrete invoice-stage state used by witnesses: a Lightning-settled
invoice payment of 1000 sats. -/
def sampleInvoiceState : LPFBWithInvoiceState :=
  { localNodeIds := ["localNode"]
    flaggedPubkeys := ["flaggedNode"]
    settlementMethod := SettlementMethod.Lightning
    paymentInitiationMethod := PaymentInitiationMethod.Lightning
    paymentHash := some "ph"
    intraLedgerHash := none
    uncheckedAmount := none
    btcPaymentAmount := some ⟨1000, WalletCurrency.Btc⟩
    usdPaymentAmount := none
    inputAmount := some 1000
    btcProtocolAndBankFee := none
    usdProtocolAndBankFee := none
    descriptionFromInvoice := "d"
    skipProbeForDestination := false }

/-- Concrete sender-stage state used by witnesses. -/
def sampleSenderState : LPFBWithSenderWalletState :=
  { toLPFBWithInvoiceState := sampleInvoiceState
    senderWalletId := "senderW"
    senderWalletCurrency := WalletCurrency.Btc
    senderAccountId := "senderA" }

/-- Sender-stage state whose pending unchecked amount is the number 0,
which JavaScript truthiness treats as absent. -/
def zeroUncheckedSenderState : LPFBWithSenderWalletState :=
  { sampleSenderState with uncheckedAmount := some 0 }

/-- Recipient arguments naming a USD wallet distinct from the sender, with
an explicit USD amount. -/
def usdRecipientArgs : RecipientArgs :=
  { id := "recipW"
    currency := WalletCurrency.Usd
    pubkey := none
    usdPaymentAmount := some ⟨250, WalletCurrency.Usd⟩
    username := none
    accountId := "recipA"
    userId := "recipU" }

/-- Concrete recipient-stage state used by witnesses: BTC sender over
Lightning with all four amounts and fees already known. -/
def sampleRecipientState : LPFBWithRecipientWalletState :=
  { toLPFBWithSenderWalletState :=
      { sampleSenderState with
        usdPaymentAmount := some ⟨50, WalletCurrency.Usd⟩
        btcProtocolAndBankFee := some ⟨6, WalletCurrency.Btc⟩
        usdProtocolAndBankFee := some ⟨1, WalletCurrency.Usd⟩ }
    recipientWalletId := some "recipW"
    recipientWalletCurrency := some WalletCurrency.Btc
    recipientPubkey := none
    recipientAccountId := some "recipA"
    recipientUsername := none
    recipientUserId := some "recipU" }

/-- Route-stage state carrying BOTH a payment hash and an intra-ledger
hash. -/
def bothHashesRouteState : LPFBWithRouteState :=
  { toLPFBWithConversionState :=
      { toLPFBWithRecipientWalletState :=
          { sampleRecipientState with intraLedgerHash := some "ilh" }
        createdAt := 0 }
    outgoingNodePubkey := none
    checkedRoute := none }

/-- Conversion-stage state carrying neither hash. -/
def noHashConversionState : LPFBWithConversionState :=
  { toLPFBWithRecipientWalletState := { sampleRecipientState with paymentHash := none }
    createdAt := 0 }

/-- A rate source that always fails with a dealer-price error. -/
def failingRateSource : RateSource :=
  { usdFromBtc := fun _ => .error (.dealerPrice "service unavailable")
    btcFromUsd := fun _ => .error (.dealerPrice "service unavailable") }

/-- A rate source converting at a fixed factor of two. -/
def doublingRateSource : RateSource :=
  { usdFromBtc := fun a => .ok ⟨a.amount * 2, WalletCurrency.Usd⟩
    btcFromUsd := fun a => .ok ⟨a.amount * 2, WalletCurrency.Btc⟩ }

/-- C1: once any builder transition yields an error, every subsequent
operation on the resulting (error) stage — any operation, any arguments,
any order, any number of calls — returns that same original error: the
error-stage state machine `LPFBWithError.apply` is invariant under every
operation sequence, and each stage transition applied to an error input
returns exactly that error. -/
theorem sticky_error_propagation (e : PaymentError) :
    (∀ ops : List BuilderOp, ops.foldl LPFBWithError.apply e = e) ∧
    (∀ w, LPFBWithInvoice.withSenderWallet (.error e) w = .err e) ∧
    (LPFBWithSenderWallet.withoutRecipientWallet (.error e) = .error e) ∧
    (∀ r, LPFBWithSenderWallet.withRecipientWallet (.error e) r = .error e) ∧
    (LPFBWithSenderWallet.isIntraLedger (.error e) = .error e) ∧
    (∀ args now, LPFBWithRecipientWallet.withConversion (.error e) args now = .error e) ∧
    (∀ pk rt, LPFBWithConversion.withRoute (.error e) pk rt = .error e) ∧
    (LPFBWithConversion.withoutRoute (.error e) = .error e) ∧
    (LPFBWithConversion.skipProbeForDestination (.error e) = .error e) ∧
    (LPFBWithConversion.isIntraLedger (.error e) = .error e) ∧
    (LPFBWithConversion.isTradeIntraAccount (.error e) = .error e) ∧
    (LPFBWithConversion.btcPaymentAmount (.error e) = .error e) ∧
    (LPFBWithConversion.usdPaymentAmount (.error e) = .error e) := by
  refine ⟨?_, fun w => rfl, rfl, fun r => rfl, rfl, fun args now => rfl,
    fun pk rt => rfl, rfl, rfl, rfl, rfl, rfl, rfl⟩
  intro ops
  induction ops with
  | nil => rfl
  | cons op rest ih => cases op <;> exact ih

/-- C4 (failing input): the builder is not exception-free — `withInvoice`
accepts an invoice whose checked payment amount is 0 (its `paymentAmount`
is non-null), and `withSenderWallet` on the resulting stage reaches
`throw new Error("withSenderWallet impossible")` because the input amount
0 is falsy, instead of returning an error value. -/
theorem withSenderWallet_throws_on_zero_amount_invoice :
    (withInvoice ⟨[], []⟩
        { destination := none
          paymentHash := "ph0"
          paymentAmount := some ⟨0, WalletCurrency.Btc⟩
          description := ""
          finalHops := [] }).isOk = true ∧
    LPFBWithInvoice.withSenderWallet
        (withInvoice ⟨[], []⟩
          { destination := none
            paymentHash := "ph0"
            paymentAmount := some ⟨0, WalletCurrency.Btc⟩
            description := ""
            finalHops := [] })
        ⟨"w1", WalletCurrency.Btc, "a1"⟩ =
      .thrown "withSenderWallet impossible" := by
  exact ⟨rfl, rfl⟩

/-- C5: `withRecipientWallet` with a recipient wallet id equal to the
sender wallet id always yields the self-payment error, regardless of all
other argument fields. -/
theorem withRecipientWallet_self_payment (state : LPFBWithSenderWalletState)
    (r : RecipientArgs) (h : r.id = state.senderWalletId) :
    LPFBWithSenderWallet.withRecipientWallet (.ok state) r = .error .selfPayment := by
  simp [LPFBWithSenderWallet.withRecipientWallet, h]

/-- Witness for C5 at a concrete sender state and argument record. -/
theorem withRecipientWallet_self_payment_witness :
    LPFBWithSenderWallet.withRecipientWallet (.ok sampleSenderState)
        { id := "senderW"
          currency := WalletCurrency.Usd
          pubkey := none
          usdPaymentAmount := some ⟨7, WalletCurrency.Usd⟩
          username := some "self"
          accountId := "senderA"
          userId := "u1" } =
      .error .selfPayment :=
  withRecipientWallet_self_payment sampleSenderState _ rfl

/-- C10: the USD-recipient amount-consistency check tests JavaScript
truthiness, not presence: with a pending unchecked amount equal to 0, an
explicit USD amount passes the check and the call succeeds, while the
absence of an explicit USD amount yields the builder-state error — the
opposite of a presence-based reading. -/
theorem withRecipientWallet_zero_unchecked_truthiness
    (state : LPFBWithSenderWalletState) (r : RecipientArgs)
    (hz : state.uncheckedAmount = some 0)
    (hc : r.currency = WalletCurrency.Usd)
    (hs : r.id ≠ state.senderWalletId) :
    (r.usdPaymentAmount.isSome = true →
      (LPFBWithSenderWallet.withRecipientWallet (.ok state) r).isOk = true) ∧
    (r.usdPaymentAmount = none →
      LPFBWithSenderWallet.withRecipientWallet (.ok state) r =
        .error (.invalidBuilderState
          "withRecipientWallet incorrect combination of usdPaymentAmount and uncheckedAmount")) := by
  constructor
  · intro hu
    simp [LPFBWithSenderWallet.withRecipientWallet, hs, hc, hz, hu, truthyNum, Except.isOk,
      Except.toBool]
  · intro hu
    simp [LPFBWithSenderWallet.withRecipientWallet, hs, hc, hz, hu, truthyNum]

/-- Witness for C10: both branches at a concrete zero-unchecked state. -/
theorem withRecipientWallet_zero_unchecked_truthiness_witness :
    zeroUncheckedSenderState.uncheckedAmount = some 0 ∧
    usdRecipientArgs.currency = WalletCurrency.Usd ∧
    usdRecipientArgs.id ≠ zeroUncheckedSenderState.senderWalletId ∧
    (LPFBWithSenderWallet.withRecipientWallet (.ok zeroUncheckedSenderState)
      usdRecipientArgs).isOk = true ∧
    LPFBWithSenderWallet.withRecipientWallet (.ok zeroUncheckedSenderState)
        { usdRecipientArgs with usdPaymentAmount := none } =
      .error (.invalidBuilderState
        "withRecipientWallet incorrect combination of usdPaymentAmount and uncheckedAmount") := by
  refine ⟨rfl, rfl, by decide, ?_, ?_⟩
  · exact (withRecipientWallet_zero_unchecked_truthiness zeroUncheckedSenderState
      usdRecipientArgs rfl rfl (by decide)).1 rfl
  · exact (withRecipientWallet_zero_unchecked_truthiness zeroUncheckedSenderState
      { usdRecipientArgs with usdPaymentAmount := none } rfl rfl (by decide)).2 rfl

/-- C2 (counterexample): the claim reads the XNOR condition on *presence*;
at a state whose pending unchecked amount is the number 0 together with an
explicit USD amount, both are present (so the presence-XNOR predicts an
error), yet the call succeeds, because the source tests truthiness
(`!!state.uncheckedAmount`) and `!!0` is false. -/
theorem withRecipientWallet_presence_xnor_counterexample :
    usdRecipientArgs.id ≠ zeroUncheckedSenderState.senderWalletId ∧
    usdRecipientArgs.currency = WalletCurrency.Usd ∧
    usdRecipientArgs.usdPaymentAmount.isSome = zeroUncheckedSenderState.uncheckedAmount.isSome ∧
    (LPFBWithSenderWallet.withRecipientWallet (.ok zeroUncheckedSenderState)
      usdRecipientArgs).isOk = true := by
  refine ⟨by decide, rfl, rfl, rfl⟩

/-- C2 (amended): for every non-self-payment call to `withRecipientWallet`
the builder-state error occurs exactly when the recipient currency is USD
and the presence of the explicit USD amount equals the *truthiness* of the
pending unchecked amount (present and nonzero); otherwise the call
succeeds, carrying the recipient identity and currency and preferring the
explicit USD amount over one already in the state. -/
theorem withRecipientWallet_truthiness_xnor (state : LPFBWithSenderWalletState)
    (r : RecipientArgs) (hs : r.id ≠ state.senderWalletId) :
    (r.currency = WalletCurrency.Usd ∧
        r.usdPaymentAmount.isSome = truthyNum state.uncheckedAmount →
      LPFBWithSenderWallet.withRecipientWallet (.ok state) r =
        .error (.invalidBuilderState
          "withRecipientWallet incorrect combination of usdPaymentAmount and uncheckedAmount")) ∧
    (¬ (r.currency = WalletCurrency.Usd ∧
        r.usdPaymentAmount.isSome = truthyNum state.uncheckedAmount) →
      ∃ s, LPFBWithSenderWallet.withRecipientWallet (.ok state) r = .ok s ∧
        s.recipientWalletId = some r.id ∧
        s.recipientWalletCurrency = some r.currency ∧
        s.recipientAccountId = some r.accountId ∧
        s.recipientUserId = some r.userId ∧
        s.usdPaymentAmount =
          (if r.usdPaymentAmount.isSome then r.usdPaymentAmount
            else state.usdPaymentAmount)) := by
  constructor
  · intro hcond
    simp [LPFBWithSenderWallet.withRecipientWallet, hs, hcond]
  · intro hcond
    have hres : LPFBWithSenderWallet.withRecipientWallet (.ok state) r =
        .ok
          { toLPFBWithSenderWalletState :=
              { state with
                usdPaymentAmount :=
                  r.usdPaymentAmount.orElse (fun _ => state.usdPaymentAmount) }
            recipientWalletId := some r.id
            recipientWalletCurrency := some r.currency
            recipientPubkey := r.pubkey
            recipientAccountId := some r.accountId
            recipientUsername := r.username
            recipientUserId := some r.userId } := by
      simp [LPFBWithSenderWallet.withRecipientWallet, hs, hcond]
    refine ⟨_, hres, rfl, rfl, rfl, rfl, ?_⟩
    cases hu : r.usdPaymentAmount <;> simp [Option.orElse, hu]

/-- Witness for C2 (amended): both branches at concrete inputs. -/
theorem withRecipientWallet_truthiness_xnor_witness :
    usdRecipientArgs.id ≠ sampleSenderState.senderWalletId ∧
    (∃ s, LPFBWithSenderWallet.withRecipientWallet (.ok sampleSenderState)
        usdRecipientArgs = .ok s ∧
      s.recipientWalletId = some usdRecipientArgs.id ∧
      s.recipientWalletCurrency = some usdRecipientArgs.currency ∧
      s.recipientAccountId = some usdRecipientArgs.accountId ∧
      s.recipientUserId = some usdRecipientArgs.userId ∧
      s.usdPaymentAmount =
        (if usdRecipientArgs.usdPaymentAmount.isSome then usdRecipientArgs.usdPaymentAmount
          else sampleSenderState.usdPaymentAmount)) := by
  refine ⟨by decide, ?_⟩
  exact (withRecipientWallet_truthiness_xnor sampleSenderState usdRecipientArgs
    (by decide)).2 (by decide)

/-- C8: for each limits check with ceiling `L` USD cents and normalized
existing volume `V` USD cents, a requested amount of exactly `L - V`
returns the sentinel `true`, and `L - V + 1` returns the corresponding
limits-exceeded error. -/
theorem limits_boundary (Li Lw Lt V : Int)
    (conv : PaymentAmount → Except PaymentError PaymentAmount)
    (hi : 0 ≤ Li) (hw : 0 ≤ Lw) (ht : 0 ≤ Lt) :
    (checkIntraledger ⟨Li, Lw⟩ conv ⟨Li - V, WalletCurrency.Usd⟩
        ⟨⟨V, WalletCurrency.Usd⟩⟩ = .ok true) ∧
    (checkIntraledger ⟨Li, Lw⟩ conv ⟨Li - V + 1, WalletCurrency.Usd⟩
        ⟨⟨V, WalletCurrency.Usd⟩⟩ =
      .error (.intraledgerLimitsExceeded
        ("Cannot transfer more than " ++ toString Li ++ " cents in 24 hours"))) ∧
    (checkWithdrawal ⟨Li, Lw⟩ conv ⟨Lw - V, WalletCurrency.Usd⟩
        ⟨⟨V, WalletCurrency.Usd⟩⟩ = .ok true) ∧
    (checkWithdrawal ⟨Li, Lw⟩ conv ⟨Lw - V + 1, WalletCurrency.Usd⟩
        ⟨⟨V, WalletCurrency.Usd⟩⟩ =
      .error (.withdrawalLimitsExceeded
        ("Cannot transfer more than " ++ toString Lw ++ " cents in 24 hours"))) ∧
    (checkTwoFA ⟨Lt⟩ conv ⟨Lt - V, WalletCurrency.Usd⟩
        ⟨⟨V, WalletCurrency.Usd⟩⟩ = .ok true) ∧
    (checkTwoFA ⟨Lt⟩ conv ⟨Lt - V + 1, WalletCurrency.Usd⟩
        ⟨⟨V, WalletCurrency.Usd⟩⟩ = .error .twoFALimitsExceeded) := by
  refine ⟨?_, ?_, ?_, ?_, ?_, ?_⟩ <;>
    simp [checkIntraledger, checkWithdrawal, checkTwoFA, volumeInUsdAmount,
      paymentAmountFromNumber, not_lt.mpr hi, not_lt.mpr hw, not_lt.mpr ht,
      Bind.bind, Except.bind, lt_self_iff_false, Int.lt_add_one_iff]

/-- Witness for C8 with ceilings 100/200/50 cents and volume 40 cents. -/
theorem limits_boundary_witness :
    (0 : Int) ≤ 100 ∧
    (checkIntraledger ⟨100, 200⟩ (fun a => .ok a) ⟨60, WalletCurrency.Usd⟩
        ⟨⟨40, WalletCurrency.Usd⟩⟩ = .ok true) ∧
    (checkIntraledger ⟨100, 200⟩ (fun a => .ok a) ⟨61, WalletCurrency.Usd⟩
        ⟨⟨40, WalletCurrency.Usd⟩⟩ =
      .error (.intraledgerLimitsExceeded
        ("Cannot transfer more than " ++ toString (100 : Int) ++ " cents in 24 hours"))) ∧
    (checkWithdrawal ⟨100, 200⟩ (fun a => .ok a) ⟨160, WalletCurrency.Usd⟩
        ⟨⟨40, WalletCurrency.Usd⟩⟩ = .ok true) ∧
    (checkTwoFA ⟨50⟩ (fun a => .ok a) ⟨11, WalletCurrency.Usd⟩
        ⟨⟨40, WalletCurrency.Usd⟩⟩ = .error .twoFALimitsExceeded) := by
  have h := limits_boundary 100 200 50 40 (fun a => .ok a)
    (by decide) (by decide) (by decide)
  exact ⟨by decide, h.1, h.2.1, h.2.2.1, by simpa using h.2.2.2.2.2⟩

/-- C3: `withInvoice` (on an amount-carrying invoice) and
`withNoAmountInvoice` resolve settlement method IntraLedger and attach the
fixed intra-ledger fee pair exactly when the invoice destination is
undefined or a member of the configured local-node-id list, and resolve
Lightning with no fee for every other destination; `withoutInvoice` always
resolves IntraLedger with the fee pair. -/
theorem settlement_resolution (c : LPFBConfig) (inv : LnInvoice) (ua : Int)
    (gh : IntraLedgerHash) (desc : String) :
    ((withNoAmountInvoice c inv ua).map projSettle =
      .ok (if isLocalDestination c inv.destination then
          (SettlementMethod.IntraLedger, some intraLedgerFeeBtc, some intraLedgerFeeUsd)
        else (SettlementMethod.Lightning, none, none))) ∧
    (inv.paymentAmount.isSome = true →
      (withInvoice c inv).map projSettle =
        .ok (if isLocalDestination c inv.destination then
            (SettlementMethod.IntraLedger, some intraLedgerFeeBtc, some intraLedgerFeeUsd)
          else (SettlementMethod.Lightning, none, none))) ∧
    ((withoutInvoice c gh ua desc).map projSettle =
      .ok (SettlementMethod.IntraLedger, some intraLedgerFeeBtc, some intraLedgerFeeUsd)) := by
  refine ⟨?_, ?_, ?_⟩
  · cases hd : inv.destination with
    | none =>
        simp [withNoAmountInvoice, settlementMethodFromDestination, isLocalDestination, hd,
          projSettle, Except.map]
    | some d =>
        by_cases hl : d ∈ c.localNodeIds <;>
          simp [withNoAmountInvoice, settlementMethodFromDestination, isLocalDestination, hd,
            hl, projSettle, Except.map]
  · intro hpa
    obtain ⟨pa, hpa⟩ := Option.isSome_iff_exists.mp hpa
    cases hd : inv.destination with
    | none =>
        simp [withInvoice, settlementMethodFromDestination, isLocalDestination, hd, hpa,
          projSettle, Except.map]
    | some d =>
        by_cases hl : d ∈ c.localNodeIds <;>
          simp [withInvoice, settlementMethodFromDestination, isLocalDestination, hd, hpa,
            hl, projSettle, Except.map]
  · simp [withoutInvoice, settlementMethodFromDestination, projSettle, Except.map]

/-- Witness for C3 at concrete local, non-local and invoice-free inputs. -/
theorem settlement_resolution_witness :
    ((some (⟨100, WalletCurrency.Btc⟩ : PaymentAmount)).isSome = true ∧
      (withInvoice ⟨["localNode"], []⟩
          { destination := some "localNode"
            paymentHash := "ph1"
            paymentAmount := some ⟨100, WalletCurrency.Btc⟩
            description := ""
            finalHops := [] }).map projSettle =
        .ok (SettlementMethod.IntraLedger, some intraLedgerFeeBtc, some intraLedgerFeeUsd)) ∧
    ((withNoAmountInvoice ⟨["localNode"], []⟩
        { destination := some "otherNode"
          paymentHash := "ph2"
          paymentAmount := none
          description := ""
          finalHops := [] } 42).map projSettle =
      .ok (SettlementMethod.Lightning, none, none)) ∧
    ((withoutInvoice ⟨["localNode"], []⟩ "ilh" 42 "memo").map projSettle =
      .ok (SettlementMethod.IntraLedger, some intraLedgerFeeBtc, some intraLedgerFeeUsd)) := by
  have h1 := settlement_resolution ⟨["localNode"], []⟩
    { destination := some "localNode"
      paymentHash := "ph1"
      paymentAmount := some ⟨100, WalletCurrency.Btc⟩
      description := ""
      finalHops := [] } 42 "ilh" "memo"
  have h2 := settlement_resolution ⟨["localNode"], []⟩
    { destination := some "otherNode"
      paymentHash := "ph2"
      paymentAmount := none
      description := ""
      finalHops := [] } 42 "ilh" "memo"
  exact ⟨⟨rfl, by simpa using h1.2.1 rfl⟩, by simpa using h2.1, h1.2.2⟩

/-- C6 (counterexample): a route state carrying BOTH a payment hash and an
intra-ledger hash yields a flow, not an error — "requires exactly one of
the two hashes" fails; the payment hash simply takes precedence. -/
theorem paymentFromState_both_hashes_counterexample :
    bothHashesRouteState.paymentHash.isSome = true ∧
    bothHashesRouteState.intraLedgerHash.isSome = true ∧
    (paymentFromState bothHashesRouteState).isOk = true := by
  exact ⟨rfl, rfl, rfl⟩

/-- C6 (amended): building the final Payment Flow requires at least one of
paymentHash / intraLedgerHash; the payment hash is preferred when both are
present; with neither, the result is the internal flow-state error
(`InvalidLightningPaymentFlowStateError`) instead of a flow — also through
`withoutRoute` and `withRoute` on a resolved conversion state. -/
theorem paymentFromState_hash_requirement (s : LPFBWithRouteState)
    (cs : LPFBWithConversionState) :
    (s.paymentHash = none → s.intraLedgerHash = none →
      paymentFromState s = .error .invalidFlowState) ∧
    (∀ h, s.paymentHash = some h →
      (paymentFromState s).map (fun f => (f.paymentHash, f.intraLedgerHash)) =
        .ok (some h, none)) ∧
    (∀ ihash, s.paymentHash = none → s.intraLedgerHash = some ihash →
      (paymentFromState s).map (fun f => (f.paymentHash, f.intraLedgerHash)) =
        .ok (none, some ihash)) ∧
    (cs.paymentHash = none → cs.intraLedgerHash = none →
      LPFBWithConversion.withoutRoute (.ok cs) = .error .invalidFlowState) ∧
    (∀ pk rt u btc, cs.paymentHash = none → cs.intraLedgerHash = none →
      cs.usdPaymentAmount = some u → cs.btcPaymentAmount = some btc →
      0 < u.amount → 0 < btc.amount → 0 ≤ rt.fee →
      LPFBWithConversion.withRoute (.ok cs) pk rt = .error .invalidFlowState) := by
  refine ⟨?_, ?_, ?_, ?_, ?_⟩
  · intro hp hi
    simp [paymentFromState, hp, hi]
  · intro h hp
    simp [paymentFromState, hp, Except.map]
  · intro ihash hp hi
    simp [paymentFromState, hp, hi, Except.map]
  · intro hp hi
    simp [LPFBWithConversion.withoutRoute, paymentFromState, hp, hi]
  · intro pk rt u btc hp hi hu hb hupos hbpos hfee
    simp [LPFBWithConversion.withRoute, priceRatioFromState, hu, hb, mkPriceRatio,
      feeFromRawRoute, not_lt.mpr hfee, not_le.mpr hupos, not_le.mpr hbpos,
      paymentFromState, hp, hi]

/-- Witness for C6 (amended) at concrete hash configurations. -/
theorem paymentFromState_hash_requirement_witness :
    noHashConversionState.paymentHash = none ∧
    noHashConversionState.intraLedgerHash = none ∧
    LPFBWithConversion.withoutRoute (.ok noHashConversionState) =
      .error .invalidFlowState ∧
    (paymentFromState bothHashesRouteState).map
        (fun f => (f.paymentHash, f.intraLedgerHash)) =
      .ok (some "ph", none) := by
  have h := paymentFromState_hash_requirement bothHashesRouteState noHashConversionState
  exact ⟨rfl, rfl, h.2.2.2.1 rfl rfl, h.2.1 "ph" rfl⟩

/-- C7: on a recipient-stage state where no conversion is required and all
four amount/fee fields are already present, `withConversion` is
independent of every supplied rate source: any two triples of rate sources
give the identical successful outcome. -/
theorem withConversion_no_rate_source_consulted
    (state : LPFBWithRecipientWalletState) (a1 a2 : ConversionArgs) (now : Nat)
    (hnc : (state.senderWalletCurrency = WalletCurrency.Btc ∧
        state.settlementMethod = SettlementMethod.Lightning) ∨
      state.recipientWalletCurrency = some state.senderWalletCurrency)
    (hb : state.btcPaymentAmount.isSome = true)
    (hu : state.usdPaymentAmount.isSome = true)
    (hbf : state.btcProtocolAndBankFee.isSome = true)
    (huf : state.usdProtocolAndBankFee.isSome = true) :
    LPFBWithRecipientWallet.withConversion (.ok state) a1 now =
      LPFBWithRecipientWallet.withConversion (.ok state) a2 now ∧
    (LPFBWithRecipientWallet.withConversion (.ok state) a1 now).isOk = true := by
  obtain ⟨bpa, hb⟩ := Option.isSome_iff_exists.mp hb
  obtain ⟨upa, hu⟩ := Option.isSome_iff_exists.mp hu
  obtain ⟨bfee, hbf⟩ := Option.isSome_iff_exists.mp hbf
  obtain ⟨ufee, huf⟩ := Option.isSome_iff_exists.mp huf
  constructor <;>
    simp [LPFBWithRecipientWallet.withConversion, hnc, hb, hu, hbf, huf, Except.isOk,
      Except.toBool]

/-- Witness for C7: a failing rate-source triple and a doubling one give
the identical successful outcome on the fully-known state. -/
theorem withConversion_no_rate_source_consulted_witness :
    ((sampleRecipientState.senderWalletCurrency = WalletCurrency.Btc ∧
        sampleRecipientState.settlementMethod = SettlementMethod.Lightning) ∨
      sampleRecipientState.recipientWalletCurrency =
        some sampleRecipientState.senderWalletCurrency) ∧
    LPFBWithRecipientWallet.withConversion (.ok sampleRecipientState)
        ⟨failingRateSource, failingRateSource, failingRateSource⟩ 7 =
      LPFBWithRecipientWallet.withConversion (.ok sampleRecipientState)
        ⟨doublingRateSource, doublingRateSource, doublingRateSource⟩ 7 ∧
    (LPFBWithRecipientWallet.withConversion (.ok sampleRecipientState)
      ⟨failingRateSource, failingRateSource, failingRateSource⟩ 7).isOk = true := by
  have h := withConversion_no_rate_source_consulted sampleRecipientState
    ⟨failingRateSource, failingRateSource, failingRateSource⟩
    ⟨doublingRateSource, doublingRateSource, doublingRateSource⟩ 7
    (Or.inl ⟨rfl, rfl⟩) rfl rfl rfl rfl
  exact ⟨Or.inl ⟨rfl, rfl⟩, h.1, h.2⟩

/-- Hash preservation: a successful `withSenderWallet` leaves both hash
fields of the threaded state unchanged. -/
theorem withSenderWallet_preserves_hashes {state : LPFBWithInvoiceState}
    {w : WalletDescriptor} {s2 : LPFBWithSenderWalletState}
    (h : LPFBWithInvoice.withSenderWallet (.ok state) w = .ok s2) :
    s2.paymentHash = state.paymentHash ∧ s2.intraLedgerHash = state.intraLedgerHash := by
  simp only [LPFBWithInvoice.withSenderWallet] at h
  repeat' split at h
  all_goals cases h <;> exact ⟨rfl, rfl⟩

/-- Hash preservation: a successful `withoutRecipientWallet` leaves both
hash fields unchanged. -/
theorem withoutRecipientWallet_preserves_hashes
    {state : LPFBWithSenderWalletState} {s3 : LPFBWithRecipientWalletState}
    (h : LPFBWithSenderWallet.withoutRecipientWallet (.ok state) = .ok s3) :
    s3.paymentHash = state.paymentHash ∧ s3.intraLedgerHash = state.intraLedgerHash := by
  simp only [LPFBWithSenderWallet.withoutRecipientWallet] at h
  split at h
  all_goals cases h <;> exact ⟨rfl, rfl⟩

/-- Hash preservation: a successful `withRecipientWallet` leaves both hash
fields unchanged. -/
theorem withRecipientWallet_preserves_hashes
    {state : LPFBWithSenderWalletState} {r : RecipientArgs}
    {s3 : LPFBWithRecipientWalletState}
    (h : LPFBWithSenderWallet.withRecipientWallet (.ok state) r = .ok s3) :
    s3.paymentHash = state.paymentHash ∧ s3.intraLedgerHash = state.intraLedgerHash := by
  simp only [LPFBWithSenderWallet.withRecipientWallet] at h
  repeat' split at h
  all_goals cases h <;> exact ⟨rfl, rfl⟩

/-- Hash preservation: a successful `withConversion` leaves both hash
fields unchanged (it rewrites only amounts, fees and the timestamp). -/
theorem withConversion_preserves_hashes {state : LPFBWithRecipientWalletState}
    {args : ConversionArgs} {now : Nat} {cs : LPFBWithConversionState}
    (h : LPFBWithRecipientWallet.withConversion (.ok state) args now = .ok cs) :
    cs.paymentHash = state.paymentHash ∧ cs.intraLedgerHash = state.intraLedgerHash := by
  simp only [LPFBWithRecipientWallet.withConversion] at h
  repeat' split at h
  all_goals cases h <;> exact ⟨rfl, rfl⟩

/-- A flow emitted by `paymentFromState` from a state with no payment hash
and a present intra-ledger hash carries exactly that intra-ledger hash. -/
theorem paymentFromState_intra_hashes {rs : LPFBWithRouteState}
    {f : PaymentFlowRec} {ihash : IntraLedgerHash}
    (hp : rs.paymentHash = none) (hi : rs.intraLedgerHash = some ihash)
    (h : paymentFromState rs = .ok f) :
    f.paymentHash = none ∧ f.intraLedgerHash = some ihash := by
  simp only [paymentFromState, hp, hi] at h
  cases h
  exact ⟨rfl, rfl⟩

/-- `withoutRoute` version of `paymentFromState_intra_hashes`. -/
theorem withoutRoute_intra_hashes {cs : LPFBWithConversionState}
    {f : PaymentFlowRec} {ihash : IntraLedgerHash}
    (hp : cs.paymentHash = none) (hi : cs.intraLedgerHash = some ihash)
    (h : LPFBWithConversion.withoutRoute (.ok cs) = .ok f) :
    f.paymentHash = none ∧ f.intraLedgerHash = some ihash := by
  simp only [LPFBWithConversion.withoutRoute] at h
  exact paymentFromState_intra_hashes hp hi h

/-- `withRoute` version of `paymentFromState_intra_hashes`. -/
theorem withRoute_intra_hashes {cs : LPFBWithConversionState}
    {f : PaymentFlowRec} {ihash : IntraLedgerHash} {pk : Pubkey} {rt : RawRoute}
    (hp : cs.paymentHash = none) (hi : cs.intraLedgerHash = some ihash)
    (h : LPFBWithConversion.withRoute (.ok cs) pk rt = .ok f) :
    f.paymentHash = none ∧ f.intraLedgerHash = some ihash := by
  simp only [LPFBWithConversion.withRoute] at h
  split at h
  · cases h
  · split at h
    · cases h
    · exact paymentFromState_intra_hashes hp hi h

/-- C9: `withoutInvoice` yields a stage with settlement method IntraLedger,
payment initiation method IntraLedger, `skipProbeForDestination` false,
the freshly generated intra-ledger hash and no payment hash; and every
flow completed from that stage — through any sender wallet, either
recipient transition, any conversion arguments and either terminal
transition — carries that intra-ledger hash and no payment hash. -/
theorem withoutInvoice_intraledger_flow (c : LPFBConfig) (ih : IntraLedgerHash)
    (ua : Int) (desc : String) :
    (∃ s, withoutInvoice c ih ua desc = .ok s ∧
      s.settlementMethod = SettlementMethod.IntraLedger ∧
      s.paymentInitiationMethod = PaymentInitiationMethod.IntraLedger ∧
      s.skipProbeForDestination = false ∧
      s.intraLedgerHash = some ih ∧ s.paymentHash = none) ∧
    (∀ w s2, LPFBWithInvoice.withSenderWallet (withoutInvoice c ih ua desc) w = .ok s2 →
      ∀ (r : RecipientArgs) (args : ConversionArgs) (now : Nat) (pk : Pubkey)
        (rt : RawRoute) (f : PaymentFlowRec),
        (LPFBWithConversion.withoutRoute
            (LPFBWithRecipientWallet.withConversion
              (LPFBWithSenderWallet.withRecipientWallet (.ok s2) r) args now) = .ok f →
          f.intraLedgerHash = some ih ∧ f.paymentHash = none) ∧
        (LPFBWithConversion.withRoute
            (LPFBWithRecipientWallet.withConversion
              (LPFBWithSenderWallet.withRecipientWallet (.ok s2) r) args now) pk rt =
            .ok f →
          f.intraLedgerHash = some ih ∧ f.paymentHash = none) ∧
        (LPFBWithConversion.withoutRoute
            (LPFBWithRecipientWallet.withConversion
              (LPFBWithSenderWallet.withoutRecipientWallet (.ok s2)) args now) = .ok f →
          f.intraLedgerHash = some ih ∧ f.paymentHash = none) ∧
        (LPFBWithConversion.withRoute
            (LPFBWithRecipientWallet.withConversion
              (LPFBWithSenderWallet.withoutRecipientWallet (.ok s2)) args now) pk rt =
            .ok f →
          f.intraLedgerHash = some ih ∧ f.paymentHash = none)) := by
  constructor
  · exact ⟨_, rfl, rfl, rfl, rfl, rfl, rfl⟩
  · intro w s2 h2 r args now pk rt f
    have hs2 := withSenderWallet_preserves_hashes h2
    have hp2 : s2.paymentHash = none := hs2.1
    have hi2 : s2.intraLedgerHash = some ih := hs2.2
    have chain :
        ∀ b3 : Except PaymentError LPFBWithRecipientWalletState,
          (∀ s3, b3 = .ok s3 →
            s3.paymentHash = none ∧ s3.intraLedgerHash = some ih) →
          (LPFBWithConversion.withoutRoute
              (LPFBWithRecipientWallet.withConversion b3 args now) = .ok f →
            f.intraLedgerHash = some ih ∧ f.paymentHash = none) ∧
          (LPFBWithConversion.withRoute
              (LPFBWithRecipientWallet.withConversion b3 args now) pk rt = .ok f →
            f.intraLedgerHash = some ih ∧ f.paymentHash = none) := by
      intro b3 hb3
      cases b3 with
      | error e => refine ⟨fun hflow => ?_, fun hflow => ?_⟩ <;> cases hflow
      | ok s3 =>
          obtain ⟨hp3, hi3⟩ := hb3 s3 rfl
          constructor
          · intro hflow
            cases hb4 : LPFBWithRecipientWallet.withConversion (.ok s3) args now with
            | error e => rw [hb4] at hflow; cases hflow
            | ok cs =>
                rw [hb4] at hflow
                have h4 := withConversion_preserves_hashes hb4
                have hres := withoutRoute_intra_hashes (h4.1.trans hp3)
                  (h4.2.trans hi3) hflow
                exact ⟨hres.2, hres.1⟩
          · intro hflow
            cases hb4 : LPFBWithRecipientWallet.withConversion (.ok s3) args now with
            | error e => rw [hb4] at hflow; cases hflow
            | ok cs =>
                rw [hb4] at hflow
                have h4 := withConversion_preserves_hashes hb4
                have hres := withRoute_intra_hashes (h4.1.trans hp3)
                  (h4.2.trans hi3) hflow
                exact ⟨hres.2, hres.1⟩
    have hwr := chain (LPFBWithSenderWallet.withRecipientWallet (.ok s2) r)
      (fun s3 h3 =>
        ⟨(withRecipientWallet_preserves_hashes h3).1.trans hp2,
          (withRecipientWallet_preserves_hashes h3).2.trans hi2⟩)
    have hwor := chain (LPFBWithSenderWallet.withoutRecipientWallet (.ok s2))
      (fun s3 h3 =>
        ⟨(withoutRecipientWallet_preserves_hashes h3).1.trans hp2,
          (withoutRecipientWallet_preserves_hashes h3).2.trans hi2⟩)
    exact ⟨hwr.1, hwr.2, hwor.1, hwor.2⟩

/-- Witness for C9: a concrete intra-ledger chain from `withoutInvoice`
through a BTC sender wallet and a BTC recipient to a finished flow. -/
theorem withoutInvoice_intraledger_flow_witness :
    ∃ s, withoutInvoice ⟨["localNode"], []⟩ "ilh9" 5000 "memo" = .ok s ∧
      s.settlementMethod = SettlementMethod.IntraLedger ∧
      s.paymentInitiationMethod = PaymentInitiationMethod.IntraLedger ∧
      s.skipProbeForDestination = false ∧
      s.intraLedgerHash = some "ilh9" ∧ s.paymentHash = none :=
  (withoutInvoice_intraledger_flow ⟨["localNode"], []⟩ "ilh9" 5000 "memo").1

end Galoy
